import Mathlib

/-!
Verification of the Threshold-Limit (TL) graph engine of this repository
(scripts genoutcomepredict.py and genoutcomepredict2.py).

The embedding is shallow: a pandas DataFrame row becomes an association
list from column names to rational values (a missing or NaN cell is an
absent key), a DataFrame becomes a list of rows, and numpy float
arithmetic is modelled exactly over the rationals.  The numpy global
random generator is modelled as an explicit deterministic state threaded
through the bootstrap functions, so that seeding (or the absence of
seeding) becomes visible in the types.
-/

/-- A row of the dataset: column name to value.  A missing or NaN cell is
simply an absent key, matching how the scripts treat missing data after
dropna and how pandas comparisons treat NaN. -/
abbrev Row : Type := List (String × ℚ)

/-- A dataset (pandas DataFrame): a list of rows. -/
abbrev DataFrame : Type := List Row

/-- Value of column c in row r (df[c] for one row); none models NaN/absent. -/
def colVal (c : String) : Row → Option ℚ
  | [] => none
  | (k, v) :: rest => if k = c then some v else colVal c rest

/-- The non-missing values of column c down a DataFrame (a pandas Series
with NaN entries skipped, as min/max/dropna skip them). -/
def colVals (df : DataFrame) (c : String) : List ℚ :=
  df.filterMap (colVal c)

/-- The comparison operators accepted in the filter columns of
input_parameters.xlsx: ==, !=, <, <=, >, >=. -/
inductive FOp : Type
  | eq | ne | lt | le | gt | ge
deriving DecidableEq

/-- One filter row (filterN, fNop, fNcriteria) of input_parameters.xlsx;
var = none models an unset (NaN) filter variable. -/
structure FilterSpec : Type where
  var : Option String
  op : FOp
  crit : ℚ
deriving DecidableEq

/-- pandas.query comparison on one cell: on a present value the usual
comparison; on NaN, != is true and every other comparison is false. -/
def cellPasses (op : FOp) (v : Option ℚ) (crit : ℚ) : Bool :=
  match v with
  | some x =>
    match op with
    | .eq => decide (x = crit)
    | .ne => decide (x ≠ crit)
    | .lt => decide (x < crit)
    | .le => decide (x ≤ crit)
    | .gt => decide (crit < x)
    | .ge => decide (crit ≤ x)
  | none => decide (op = .ne)

/-- Whether row r survives one filter: an unset filter variable is a
no-op, a filter variable absent from the column list is skipped with a
warning, otherwise the row must pass the comparison (df.query). -/
def rowPasses (cols : List String) (fs : FilterSpec) (r : Row) : Bool :=
  match fs.var with
  | none => true
  | some v => if v ∈ cols then cellPasses fs.op (colVal v r) fs.crit else true

/-- apply_filters from both scripts: successively restrict the DataFrame
by each filter; cols is df.columns, which row filtering never changes. -/
def apply_filters (cols : List String) (df : DataFrame) (filters : List FilterSpec) :
    DataFrame :=
  filters.foldl (fun d fs => d.filter (rowPasses cols fs)) df

/-- df.dropna(subset=[variable, outcome]): keep rows with both values. -/
def dropna (df : DataFrame) (pcol outcome : String) : DataFrame :=
  df.filter (fun r => (colVal pcol r).isSome && (colVal outcome r).isSome)

/-- Series.min over the rationals (0 on an empty series, never used there). -/
def vmin : List ℚ → ℚ
  | [] => 0
  | x :: xs => xs.foldl min x

/-- Series.max over the rationals (0 on an empty series, never used there). -/
def vmax : List ℚ → ℚ
  | [] => 0
  | x :: xs => xs.foldl max x

/-- np.linspace a b num: num evenly spaced points from a to b inclusive
(exact over the rationals: point i is a + (b - a) * i / (num - 1)). -/
def linspace (a b : ℚ) (num : ℕ) : List ℚ :=
  (List.range num).map (fun i : ℕ => a + (b - a) * (i : ℚ) / ((num : ℚ) - 1))

/-- The threshold grid of plot_TL_graph:
np.linspace(df[variable].min(), df[variable].max(), 20). -/
def thresholds (df : DataFrame) (pcol : String) : List ℚ :=
  linspace (vmin (colVals df pcol)) (vmax (colVals df pcol)) 20

/-- df[df[variable] >= threshold]; a NaN predictor compares false. -/
def filtered_above (df : DataFrame) (pcol : String) (t : ℚ) : DataFrame :=
  df.filter (fun r =>
    match colVal pcol r with
    | some x => decide (t ≤ x)
    | none => false)

/-- df[df[variable] <= threshold]; a NaN predictor compares false. -/
def filtered_below (df : DataFrame) (pcol : String) (t : ℚ) : DataFrame :=
  df.filter (fun r =>
    match colVal pcol r with
    | some x => decide (x ≤ t)
    | none => false)

/-- Applying a numpy statistic (np.mean / np.median) to a column: on an
empty column numpy yields NaN, modelled as none. -/
def applyStat (f : List ℚ → ℚ) (vals : List ℚ) : Option ℚ :=
  if vals.isEmpty then none else some (f vals)

/-- stat_above at one threshold:
stat_func(filtered_above[outcome]) if filtered_above[outcome].size >= minn
else np.nan.  The .size guard counts rows of the subset. -/
def stat_above (df : DataFrame) (pcol outcome : String) (t : ℚ) (minn : ℕ)
    (f : List ℚ → ℚ) : Option ℚ :=
  if minn ≤ (filtered_above df pcol t).length then
    applyStat f (colVals (filtered_above df pcol t) outcome)
  else none

/-- stat_below at one threshold, symmetric to stat_above. -/
def stat_below (df : DataFrame) (pcol outcome : String) (t : ℚ) (minn : ℕ)
    (f : List ℚ → ℚ) : Option ℚ :=
  if minn ≤ (filtered_below df pcol t).length then
    applyStat f (colVals (filtered_below df pcol t) outcome)
  else none

/-- calculate_statistics: the per-threshold loop collecting stats_above
and stats_below. -/
def calculate_statistics (df : DataFrame) (pcol outcome : String)
    (ts : List ℚ) (minn : ℕ) (f : List ℚ → ℚ) :
    List (Option ℚ) × List (Option ℚ) :=
  (ts.map (fun t => stat_above df pcol outcome t minn f),
   ts.map (fun t => stat_below df pcol outcome t minn f))

/-- np.mean: sum divided by length. -/
def mean (l : List ℚ) : ℚ := l.sum / l.length

/-- Insert into a sorted list (ascending). -/
def insertSorted (x : ℚ) : List ℚ → List ℚ
  | [] => [x]
  | y :: ys => if x ≤ y then x :: y :: ys else y :: insertSorted x ys

/-- Sort a list of rationals ascending (insertion sort, models np.sort). -/
def sortQ (l : List ℚ) : List ℚ := l.foldr insertSorted []

/-- np.median: middle element of the sorted data for odd length, average
of the two middle elements for even length. -/
def median (l : List ℚ) : ℚ :=
  let s := sortQ l
  let n := s.length
  if n % 2 = 1 then s.getD (n / 2) 0
  else (s.getD (n / 2 - 1) 0 + s.getD (n / 2) 0) / 2

/-- np.percentile with the default linear interpolation: for data of
length n and percentile q, let h = (n-1)*q/100; interpolate between the
sorted elements at positions floor h and floor h + 1. -/
def percentile (a : List ℚ) (q : ℚ) : ℚ :=
  let s := sortQ a
  let h : ℚ := ((s.length : ℚ) - 1) * q / 100
  let k : ℕ := (⌊h⌋).toNat
  let d : ℚ := h - (k : ℚ)
  s.getD k 0 + d * (s.getD (k + 1) 0 - s.getD k 0)

/-- Model of the numpy legacy global generator state: a single natural
number advanced by a linear congruential step.  The scripts never depend
on the distribution of the stream, only on whether its initial state is
fixed by np.random.seed. -/
def lcgStep (s : ℕ) : ℕ := (s * 1103515245 + 12345) % 2147483648

/-- Draw one uniform index below n, returning the advanced state. -/
def randBelow (n : ℕ) (g : ℕ) : ℕ × ℕ :=
  let g2 := lcgStep g
  ((g2 / 65536) % n, g2)

/-- Draw k successive indices below n, threading the generator state. -/
def draws : ℕ → ℕ → ℕ → List ℕ × ℕ
  | 0, _, g => ([], g)
  | k + 1, n, g =>
    let (i, g2) := randBelow n g
    let (rest, g3) := draws k n g2
    (i :: rest, g3)

/-- Cut a flat (row-major) list of draws into b rows of n entries each:
the shape of np.random.choice(data, size=(b, n)). -/
def rowsOf : ℕ → ℕ → List α → List (List α)
  | 0, _, _ => []
  | b + 1, n, l => l.take n :: rowsOf b n (l.drop n)

/-- np.random.choice(data, size=(num_boots, len(data)), replace=True):
num_boots * len(data) uniform draws from data, laid out row-major as a
num_boots x len(data) matrix, returning the advanced generator state. -/
def np_random_choice_matrix (data : List ℚ) (b n : ℕ) (g : ℕ) :
    List (List ℚ) × ℕ :=
  let res := draws (b * n) data.length g
  (rowsOf b n (res.1.map (fun i => data.getD i 0)), res.2)

/-- bootstrap_mean_confidence_interval(data, num_boots, ci): resample a
(num_boots x len(data)) matrix, take row means, and return the
(100-ci)/2 and 100-(100-ci)/2 percentiles of the bootstrap means.  The
generator state is explicit: the scripts read it from the numpy global. -/
def bootstrap_mean_confidence_interval (data : List ℚ) (num_boots : ℕ)
    (ci : ℚ) (g : ℕ) : (ℚ × ℚ) × ℕ :=
  let res := np_random_choice_matrix data num_boots data.length g
  let boot_means := res.1.map mean
  ((percentile boot_means ((100 - ci) / 2),
    percentile boot_means (100 - (100 - ci) / 2)), res.2)

/-- bootstrap_median_confidence_interval: same resampling with np.median. -/
def bootstrap_median_confidence_interval (data : List ℚ) (num_boots : ℕ)
    (ci : ℚ) (g : ℕ) : (ℚ × ℚ) × ℕ :=
  let res := np_random_choice_matrix data num_boots data.length g
  let boot_medians := res.1.map median
  ((percentile boot_medians ((100 - ci) / 2),
    percentile boot_medians (100 - (100 - ci) / 2)), res.2)

/-- genoutcomepredict.py sets np.random.seed(0) once at startup, so a
bootstrap call there starts from the fixed seeded state no matter what
the ambient process state was; the ambient argument is ignored.  This is
the mean-kind confidence interval as that script runs it. -/
def seeded_bootstrap_mean_ci (_ambient : ℕ) (data : List ℚ) : ℚ × ℚ :=
  (bootstrap_mean_confidence_interval data 1000 95 0).1

/-- The median-kind interval of genoutcomepredict.py, same seeding. -/
def seeded_bootstrap_median_ci (_ambient : ℕ) (data : List ℚ) : ℚ × ℚ :=
  (bootstrap_median_confidence_interval data 1000 95 0).1

/-- genoutcomepredict2.py never seeds the generator, so its bootstrap
call starts from whatever ambient state the process RNG happens to have. -/
def unseeded_bootstrap_mean_ci (ambient : ℕ) (data : List ℚ) : ℚ × ℚ :=
  (bootstrap_mean_confidence_interval data 1000 95 ambient).1

/-- Modelled from the spec: ConfidenceIntervalEstimator, one bootstrap
resample — draw len(data) values from data with replacement. -/
def specResample (data : List ℚ) (g : ℕ) : List ℚ × ℕ :=
  let res := draws data.length data.length g
  (res.1.map (fun i => data.getD i 0), res.2)

/-- Modelled from the spec: draw b resamples with replacement, each of
size len(data), and compute the statistic of each resample in turn. -/
def specBootstrapStats (f : List ℚ → ℚ) (data : List ℚ) :
    ℕ → ℕ → List ℚ × ℕ
  | 0, g => ([], g)
  | b + 1, g =>
    let r := specResample data g
    let rest := specBootstrapStats f data b r.2
    (f r.1 :: rest.1, rest.2)

/-- Modelled from the spec: the full bootstrap interval — b resample
statistics, then their 2.5th and 97.5th percentiles as (lower, upper). -/
def specBootstrapCI (f : List ℚ → ℚ) (data : List ℚ) (b : ℕ) (g : ℕ) :
    (ℚ × ℚ) × ℕ :=
  let res := specBootstrapStats f data b g
  ((percentile res.1 (5 / 2), percentile res.1 (195 / 2)), res.2)

/-- Modelled from the spec: the quantity under the square root of the
closed-form Wilson score interval (statsmodels proportion_confint with
method wilson), with phat = sum(data)/len(data) and n = len(data):
phat*(1-phat)/n + z^2/(4 n^2).  The z-score is kept as a parameter. -/
def wilsonDisc (data : List ℚ) (z : ℚ) : ℚ :=
  let n : ℚ := data.length
  let phat := data.sum / n
  phat * (1 - phat) / n + z ^ 2 / (4 * n ^ 2)

/-- Modelled from the spec: the lower Wilson bound
(phat + z^2/(2n) - z*sqrt(disc)) / (1 + z^2/n); s stands for the exact
square root of wilsonDisc, supplied separately since it is irrational
in general. -/
def wilsonLower (data : List ℚ) (z s : ℚ) : ℚ :=
  let n : ℚ := data.length
  let phat := data.sum / n
  (phat + z ^ 2 / (2 * n) - z * s) / (1 + z ^ 2 / n)

/-- Modelled from the spec: the upper Wilson bound
(phat + z^2/(2n) + z*sqrt(disc)) / (1 + z^2/n). -/
def wilsonUpper (data : List ℚ) (z s : ℚ) : ℚ :=
  let n : ℚ := data.length
  let phat := data.sum / n
  (phat + z ^ 2 / (2 * n) + z * s) / (1 + z ^ 2 / n)

/-- The graphtype dispatch of get_statistic_functions / plot_TL_graph:
c uses np.mean, m uses np.median, p uses np.mean of the binary outcome;
any other character is an invalid graph type. -/
def stat_func_of (graphtype : Char) : Option (List ℚ → ℚ) :=
  if graphtype = 'c' then some mean
  else if graphtype = 'm' then some median
  else if graphtype = 'p' then some mean
  else none

/-- One row of input_parameters.xlsx as the sweep consumes it. -/
structure GraphSpec : Type where
  pcol : String
  outcome : String
  filters : List FilterSpec
  graphtype : Char
  minn : ℕ

/-- The per-graph outcome of the batch loop: a configuration problem
(missing column or invalid graph type), a skip because the filtered
dataset is empty, or a completed sweep. -/
inductive GraphOutcome : Type
  | configError : GraphOutcome
  | skippedEmpty : GraphOutcome
  | plotted : List ℚ → List (Option ℚ) × List (Option ℚ) → GraphOutcome

/-- Processing of one GraphSpec, as main / generate_graphs do it: check
the outcome and predictor columns exist, apply the filters, drop rows
with missing predictor or outcome, skip if the result is empty, and
otherwise run the threshold sweep with the graphtype's statistic. -/
def processSpec (cols : List String) (df : DataFrame) (gs : GraphSpec) :
    GraphOutcome :=
  if gs.outcome ∉ cols then .configError
  else if gs.pcol ∉ cols then .configError
  else
    let d1 := apply_filters cols df gs.filters
    let d2 := dropna d1 gs.pcol gs.outcome
    if d2.isEmpty then .skippedEmpty
    else
      match stat_func_of gs.graphtype with
      | none => .configError
      | some f =>
        .plotted (thresholds d2 gs.pcol)
          (calculate_statistics d2 gs.pcol gs.outcome (thresholds d2 gs.pcol) gs.minn f)

/-- The batch loop over the parameter rows: every GraphSpec is processed
independently and yields its own per-graph outcome. -/
def generate_graphs (cols : List String) (df : DataFrame)
    (specs : List GraphSpec) : List GraphOutcome :=
  specs.map (processSpec cols df)

/-! ### Helper lemmas: Series.min / Series.max -/

theorem foldl_min_le_init : ∀ (xs : List ℚ) (a : ℚ), xs.foldl min a ≤ a
  | [], a => le_refl a
  | x :: xs, a =>
    le_trans (foldl_min_le_init xs (min a x)) (min_le_left a x)

theorem foldl_min_le_mem : ∀ (xs : List ℚ) (a x : ℚ), x ∈ xs → xs.foldl min a ≤ x
  | y :: ys, a, x, h => by
    rcases List.mem_cons.1 h with h1 | h2
    · subst h1
      exact le_trans (foldl_min_le_init ys (min a x)) (min_le_right a x)
    · exact foldl_min_le_mem ys (min a y) x h2

theorem foldl_min_mem : ∀ (xs : List ℚ) (a : ℚ), xs.foldl min a = a ∨ xs.foldl min a ∈ xs
  | [], a => Or.inl rfl
  | x :: xs, a => by
    rcases foldl_min_mem xs (min a x) with h | h
    · rcases min_choice a x with hc | hc
      · exact Or.inl (by rw [List.foldl_cons, h, hc])
      · exact Or.inr (by rw [List.foldl_cons, h, hc]; exact List.mem_cons_self x xs)
    · exact Or.inr (List.mem_cons_of_mem x h)

theorem init_le_foldl_max : ∀ (xs : List ℚ) (a : ℚ), a ≤ xs.foldl max a
  | [], a => le_refl a
  | x :: xs, a =>
    le_trans (le_max_left a x) (init_le_foldl_max xs (max a x))

theorem mem_le_foldl_max : ∀ (xs : List ℚ) (a x : ℚ), x ∈ xs → x ≤ xs.foldl max a
  | y :: ys, a, x, h => by
    rcases List.mem_cons.1 h with h1 | h2
    · subst h1
      exact le_trans (le_max_right a x) (init_le_foldl_max ys (max a x))
    · exact mem_le_foldl_max ys (max a y) x h2

theorem foldl_max_mem : ∀ (xs : List ℚ) (a : ℚ), xs.foldl max a = a ∨ xs.foldl max a ∈ xs
  | [], a => Or.inl rfl
  | x :: xs, a => by
    rcases foldl_max_mem xs (max a x) with h | h
    · rcases max_choice a x with hc | hc
      · exact Or.inl (by rw [List.foldl_cons, h, hc])
      · exact Or.inr (by rw [List.foldl_cons, h, hc]; exact List.mem_cons_self x xs)
    · exact Or.inr (List.mem_cons_of_mem x h)

theorem vmin_le_of_mem {l : List ℚ} {x : ℚ} (h : x ∈ l) : vmin l ≤ x := by
  match l, h with
  | y :: ys, h =>
    rcases List.mem_cons.1 h with h1 | h2
    · subst h1; exact foldl_min_le_init ys x
    · exact foldl_min_le_mem ys y x h2

theorem vmin_mem {l : List ℚ} (h : l ≠ []) : vmin l ∈ l := by
  match l with
  | y :: ys =>
    rcases foldl_min_mem ys y with h1 | h1
    · rw [vmin, h1]; exact List.mem_cons_self y ys
    · exact List.mem_cons_of_mem y h1

theorem le_vmax_of_mem {l : List ℚ} {x : ℚ} (h : x ∈ l) : x ≤ vmax l := by
  match l, h with
  | y :: ys, h =>
    rcases List.mem_cons.1 h with h1 | h2
    · subst h1; exact init_le_foldl_max ys x
    · exact mem_le_foldl_max ys y x h2

theorem vmax_mem {l : List ℚ} (h : l ≠ []) : vmax l ∈ l := by
  match l with
  | y :: ys =>
    rcases foldl_max_mem ys y with h1 | h1
    · rw [vmax, h1]; exact List.mem_cons_self y ys
    · exact List.mem_cons_of_mem y h1

theorem vmin_le_vmax {l : List ℚ} (h : l ≠ []) : vmin l ≤ vmax l :=
  vmin_le_of_mem (vmax_mem h)

/-! ### Helper lemmas: linspace -/

theorem linspace_length (a b : ℚ) (n : ℕ) : (linspace a b n).length = n := by
  rw [linspace, List.length_map, List.length_range]

theorem linspace_getD (a b : ℚ) {n i : ℕ} (h : i < n) :
    (linspace a b n).getD i 0 = a + (b - a) * i / ((n : ℚ) - 1) := by
  have hlen : i < (linspace a b n).length := by rw [linspace_length]; exact h
  rw [List.getD_eq_getElem?_getD, List.getElem?_eq_getElem hlen]
  simp only [linspace, List.getElem_map, List.getElem_range, Option.getD_some]

theorem linspace_mem {a b t : ℚ} {n : ℕ} (h : t ∈ linspace a b n) :
    ∃ i : ℕ, i < n ∧ t = a + (b - a) * i / ((n : ℚ) - 1) := by
  rw [linspace] at h
  rcases List.mem_map.1 h with ⟨i, hi, hv⟩
  exact ⟨i, List.mem_range.1 hi, hv.symm⟩

theorem linspace_head? (a b : ℚ) : (linspace a b 20).head? = some a := by
  rw [linspace, List.head?_map]
  norm_num [List.range_succ_eq_map]

theorem linspace_getLast? (a b : ℚ) : (linspace a b 20).getLast? = some b := by
  rw [List.getLast?_eq_getElem?]
  have hlen : (linspace a b 20).length = 20 := linspace_length a b 20
  rw [hlen]
  have h19 : (19 : ℕ) < (linspace a b 20).length := by rw [hlen]; omega
  rw [List.getElem?_eq_getElem h19]
  have hv : (linspace a b 20)[19] = a + (b - a) * ((19 : ℕ) : ℚ) / ((20 : ℚ) - 1) := by
    simp only [linspace, List.getElem_map, List.getElem_range]
    norm_num
  rw [hv]
  congr 1
  push_cast
  ring

theorem linspace_headD (a b : ℚ) : (linspace a b 20).headD 0 = a := by
  rw [List.headD_eq_head?_getD, linspace_head?]
  rfl

theorem linspace_getLastD (a b : ℚ) : (linspace a b 20).getLastD 0 = b := by
  rw [List.getLastD_eq_getLast?, linspace_getLast?]
  rfl

theorem linspace_mem_bounds {a b t : ℚ} (hab : a ≤ b) (h : t ∈ linspace a b 20) :
    a ≤ t ∧ t ≤ b := by
  rcases linspace_mem h with ⟨i, hi, rfl⟩
  have hi19 : (i : ℚ) ≤ 19 := by exact_mod_cast Nat.lt_succ_iff.1 hi
  have hi0 : (0 : ℚ) ≤ (i : ℚ) := Nat.cast_nonneg i
  have hba : (0 : ℚ) ≤ b - a := by linarith
  constructor
  · have : (0 : ℚ) ≤ (b - a) * i / ((20 : ℚ) - 1) := by positivity
    linarith
  · have hle : (b - a) * i ≤ (b - a) * 19 := by nlinarith
    have : (b - a) * i / ((20 : ℚ) - 1) ≤ (b - a) := by
      rw [div_le_iff₀ (by norm_num : (0:ℚ) < (20 : ℚ) - 1)]
      norm_num
      linarith
    linarith

/-! ### Helper lemmas: subsets at a threshold -/

theorem mem_filtered_above {df : DataFrame} {pcol : String} {t x : ℚ} {r : Row}
    (hr : r ∈ df) (hx : colVal pcol r = some x) (hle : t ≤ x) :
    r ∈ filtered_above df pcol t := by
  refine List.mem_filter.2 ⟨hr, ?_⟩
  rw [hx]
  simpa using hle

theorem mem_filtered_below {df : DataFrame} {pcol : String} {t x : ℚ} {r : Row}
    (hr : r ∈ df) (hx : colVal pcol r = some x) (hle : x ≤ t) :
    r ∈ filtered_below df pcol t := by
  refine List.mem_filter.2 ⟨hr, ?_⟩
  rw [hx]
  simpa using hle

theorem colVals_ne_nil {df : DataFrame} {c : String}
    (hall : ∀ r ∈ df, (colVal c r).isSome = true) (hne : df ≠ []) :
    colVals df c ≠ [] := by
  match df, hne with
  | r :: rest, _ =>
    rcases Option.isSome_iff_exists.1 (hall r (List.mem_cons_self r rest)) with ⟨x, hx⟩
    have : x ∈ colVals (r :: rest) c :=
      List.mem_filterMap.2 ⟨r, List.mem_cons_self r rest, hx⟩
    exact List.ne_nil_of_mem this

theorem exists_row_of_colVals_mem {df : DataFrame} {c : String} {x : ℚ}
    (h : x ∈ colVals df c) : ∃ r ∈ df, colVal c r = some x :=
  List.mem_filterMap.1 h

/-- A row attaining the predictor maximum lies in every above-subset whose
threshold does not exceed the maximum. -/
theorem filtered_above_ne_nil {df : DataFrame} {pcol : String} {t : ℚ}
    (hall : ∀ r ∈ df, (colVal pcol r).isSome = true) (hne : df ≠ [])
    (ht : t ≤ vmax (colVals df pcol)) :
    filtered_above df pcol t ≠ [] := by
  have hcv := colVals_ne_nil hall hne
  rcases exists_row_of_colVals_mem (vmax_mem hcv) with ⟨r, hr, hx⟩
  exact List.ne_nil_of_mem (mem_filtered_above hr hx ht)

theorem filtered_below_ne_nil {df : DataFrame} {pcol : String} {t : ℚ}
    (hall : ∀ r ∈ df, (colVal pcol r).isSome = true) (hne : df ≠ [])
    (ht : vmin (colVals df pcol) ≤ t) :
    filtered_below df pcol t ≠ [] := by
  have hcv := colVals_ne_nil hall hne
  rcases exists_row_of_colVals_mem (vmin_mem hcv) with ⟨r, hr, hx⟩
  exact List.ne_nil_of_mem (mem_filtered_below hr hx ht)

theorem filter_length_mono {α : Type} (p q : α → Bool)
    (h : ∀ a, p a = true → q a = true) :
    ∀ l : List α, (l.filter p).length ≤ (l.filter q).length := by
  intro l
  induction l with
  | nil => simp
  | cons x xs ih =>
    by_cases hp : p x = true
    · rw [List.filter_cons_of_pos hp, List.filter_cons_of_pos (h x hp)]
      simpa using ih
    · rw [List.filter_cons_of_neg (by simpa using hp)]
      by_cases hq : q x = true
      · rw [List.filter_cons_of_pos hq]
        exact le_trans ih (by simp)
      · rw [List.filter_cons_of_neg (by simpa using hq)]
        exact ih

/-! ### Helper lemmas: the filter chain -/

theorem apply_filters_nil (cols : List String) (df : DataFrame) :
    apply_filters cols df [] = df := rfl

theorem apply_filters_cons (cols : List String) (df : DataFrame)
    (f : FilterSpec) (fs : List FilterSpec) :
    apply_filters cols df (f :: fs) =
      apply_filters cols (df.filter (rowPasses cols f)) fs := rfl

/-- The filter chain is the single conjunctive filter over all its
predicates: each row must pass every active filter. -/
theorem apply_filters_eq_filter_all (cols : List String)
    (fs : List FilterSpec) (df : DataFrame) :
    apply_filters cols df fs =
      df.filter (fun r => fs.all (fun f => rowPasses cols f r)) := by
  induction fs generalizing df with
  | nil =>
    rw [apply_filters_nil]
    simp
  | cons f fs ih =>
    rw [apply_filters_cons, ih, List.filter_filter]
    refine List.filter_congr ?_
    intro r _
    simp [Bool.and_comm]

theorem all_perm_eq {α : Type} {l1 l2 : List α} (h : l1.Perm l2)
    (p : α → Bool) : l1.all p = l2.all p := by
  rcases hb : l2.all p with hfalse | htrue
  · rcases List.all_eq_false.1 hb with ⟨x, hx, hpx⟩
    exact List.all_eq_false.2 ⟨x, h.mem_iff.2 hx, hpx⟩
  · refine List.all_eq_true.2 ?_
    intro x hx
    exact List.all_eq_true.1 hb x (h.mem_iff.1 hx)

/-! ### Helper lemmas: the resampling stream -/

theorem draws_length : ∀ (k n g : ℕ), (draws k n g).1.length = k
  | 0, _, _ => rfl
  | k + 1, n, g => by
    simp only [draws]
    rw [List.length_cons, draws_length k n (randBelow n g).2]

/-- Splitting a run of a + c draws: the first a draws, then c more from
the intermediate state. -/
theorem draws_add : ∀ (a c n g : ℕ),
    draws (a + c) n g =
      ((draws a n g).1 ++ (draws c n (draws a n g).2).1,
       (draws c n (draws a n g).2).2)
  | 0, c, n, g => by
    rw [Nat.zero_add]
    simp [draws]
  | a + 1, c, n, g => by
    have hsh : a + 1 + c = (a + c) + 1 := by omega
    rw [hsh]
    simp only [draws]
    rw [draws_add a c n (randBelow n g).2]
    simp

/-- The flat row-major matrix of num_boots * n draws, mapped through the
statistic row by row, is the same sequence of statistics as drawing the
num_boots resamples one after the other. -/
theorem choice_matrix_eq_spec (f : List ℚ → ℚ) (data : List ℚ) :
    ∀ (b : ℕ) (g : ℕ),
      ((np_random_choice_matrix data b data.length g).1.map f,
       (np_random_choice_matrix data b data.length g).2) =
      specBootstrapStats f data b g := by
  intro b
  induction b with
  | zero =>
    intro g
    simp [np_random_choice_matrix, draws, rowsOf, specBootstrapStats,
      Nat.zero_mul]
  | succ b ih =>
    intro g
    have hsplit := draws_add data.length (b * data.length) data.length g
    have hmul : (b + 1) * data.length = data.length + b * data.length := by
      ring
    have hlen1 : ((draws data.length data.length g).1.map
        (fun i => data.getD i 0)).length = data.length := by
      rw [List.length_map, draws_length]
    simp only [np_random_choice_matrix, hmul, hsplit, List.map_append,
      rowsOf, specBootstrapStats, specResample]
    rw [List.take_left' hlen1, List.drop_left' hlen1]
    have htail := ih (draws data.length data.length g).2
    simp only [np_random_choice_matrix] at htail
    rw [List.map_cons]
    rw [Prod.mk.injEq]
    constructor
    · rw [List.cons.injEq]
      exact ⟨rfl, congrArg Prod.fst htail⟩
    · exact congrArg Prod.snd htail

/-! ### Claim theorems -/

/-- C1: for every filtered dataset whose predictor column is non-empty,
the sweep produces exactly 20 thresholds, linearly spaced over
[min(predictor), max(predictor)] inclusive, first equal to the minimum,
last equal to the maximum; when min equals max all 20 thresholds equal
that value (and nothing crashes: the grid is still produced). -/
theorem sweep_produces_20_linspace_thresholds (df : DataFrame) (pcol : String)
    (hne : colVals df pcol ≠ []) :
    (thresholds df pcol).length = 20
    ∧ (thresholds df pcol).head? = some (vmin (colVals df pcol))
    ∧ (thresholds df pcol).getLast? = some (vmax (colVals df pcol))
    ∧ (∀ i : ℕ, i + 1 < 20 →
        (thresholds df pcol).getD (i + 1) 0 - (thresholds df pcol).getD i 0
          = (vmax (colVals df pcol) - vmin (colVals df pcol)) / 19)
    ∧ (vmin (colVals df pcol) = vmax (colVals df pcol) →
        ∀ t ∈ thresholds df pcol, t = vmin (colVals df pcol)) := by
  have hth : thresholds df pcol
      = linspace (vmin (colVals df pcol)) (vmax (colVals df pcol)) 20 := rfl
  refine ⟨by rw [hth]; exact linspace_length _ _ _,
    by rw [hth]; exact linspace_head? _ _,
    by rw [hth]; exact linspace_getLast? _ _, ?_, ?_⟩
  · intro i hi1
    rw [hth, linspace_getD _ _ hi1, linspace_getD _ _ (by omega : i < 20)]
    push_cast
    ring
  · intro heq t ht
    rw [hth] at ht
    rcases linspace_mem ht with ⟨i, _, rfl⟩
    rw [← heq]
    simp

/-- Witness for C1 at a concrete two-row dataset with predictor values
1 and 20, so that the 20 thresholds are the integers 1..20. -/
theorem sweep_produces_20_linspace_thresholds_witness :
    colVals [[("x", (1 : ℚ))], [("x", (20 : ℚ))]] "x" ≠ []
    ∧ ((thresholds [[("x", (1 : ℚ))], [("x", (20 : ℚ))]] "x").length = 20
    ∧ (thresholds [[("x", (1 : ℚ))], [("x", (20 : ℚ))]] "x").head?
        = some (vmin (colVals [[("x", (1 : ℚ))], [("x", (20 : ℚ))]] "x"))
    ∧ (thresholds [[("x", (1 : ℚ))], [("x", (20 : ℚ))]] "x").getLast?
        = some (vmax (colVals [[("x", (1 : ℚ))], [("x", (20 : ℚ))]] "x"))
    ∧ (∀ i : ℕ, i + 1 < 20 →
        (thresholds [[("x", (1 : ℚ))], [("x", (20 : ℚ))]] "x").getD (i + 1) 0
          - (thresholds [[("x", (1 : ℚ))], [("x", (20 : ℚ))]] "x").getD i 0
          = (vmax (colVals [[("x", (1 : ℚ))], [("x", (20 : ℚ))]] "x")
             - vmin (colVals [[("x", (1 : ℚ))], [("x", (20 : ℚ))]] "x")) / 19)
    ∧ (vmin (colVals [[("x", (1 : ℚ))], [("x", (20 : ℚ))]] "x")
        = vmax (colVals [[("x", (1 : ℚ))], [("x", (20 : ℚ))]] "x") →
        ∀ t ∈ thresholds [[("x", (1 : ℚ))], [("x", (20 : ℚ))]] "x",
          t = vmin (colVals [[("x", (1 : ℚ))], [("x", (20 : ℚ))]] "x"))) :=
  ⟨by decide,
   sweep_produces_20_linspace_thresholds [[("x", (1 : ℚ))], [("x", (20 : ℚ))]] "x"
     (by decide)⟩

/-- C3: a row whose predictor value exactly equals a threshold is a
member of both the above-subset and the below-subset at that threshold
(both comparisons are inclusive). -/
theorem boundary_row_in_both_subsets (df : DataFrame) (pcol : String)
    (t : ℚ) (r : Row) (hr : r ∈ df) (hx : colVal pcol r = some t) :
    r ∈ filtered_above df pcol t ∧ r ∈ filtered_below df pcol t :=
  ⟨mem_filtered_above hr hx le_rfl, mem_filtered_below hr hx le_rfl⟩

/-- Witness for C3: the single row with predictor 3 sits in both subsets
at threshold 3. -/
theorem boundary_row_in_both_subsets_witness :
    [("x", (3 : ℚ))] ∈ [[("x", (3 : ℚ))], [("x", (7 : ℚ))]]
    ∧ colVal "x" [("x", (3 : ℚ))] = some 3
    ∧ ([("x", (3 : ℚ))] ∈ filtered_above [[("x", (3 : ℚ))], [("x", (7 : ℚ))]] "x" 3
       ∧ [("x", (3 : ℚ))] ∈ filtered_below [[("x", (3 : ℚ))], [("x", (7 : ℚ))]] "x" 3) :=
  ⟨by decide, by decide,
   boundary_row_in_both_subsets [[("x", (3 : ℚ))], [("x", (7 : ℚ))]] "x" 3
     [("x", (3 : ℚ))] (by decide) (by decide)⟩

/-- C4: for thresholds t1 less than or equal to t2, the above-count at t2 is
at most the above-count at t1, and the below-count at t1 is at most the
below-count at t2: counts are monotone in the threshold. -/
theorem subset_counts_monotone (df : DataFrame) (pcol : String)
    (t1 t2 : ℚ) (h : t1 ≤ t2) :
    (filtered_above df pcol t2).length ≤ (filtered_above df pcol t1).length
    ∧ (filtered_below df pcol t1).length ≤ (filtered_below df pcol t2).length := by
  constructor
  · apply filter_length_mono
    intro r hp
    cases hcv : colVal pcol r with
    | none => simp [hcv] at hp
    | some x =>
      simp only [hcv, decide_eq_true_eq] at hp ⊢
      linarith
  · apply filter_length_mono
    intro r hp
    cases hcv : colVal pcol r with
    | none => simp [hcv] at hp
    | some x =>
      simp only [hcv, decide_eq_true_eq] at hp ⊢
      linarith

/-- Witness for C4 at thresholds 2 and 5 over a three-row dataset. -/
theorem subset_counts_monotone_witness :
    (2 : ℚ) ≤ 5
    ∧ ((filtered_above [[("x", (1 : ℚ))], [("x", (3 : ℚ))], [("x", (6 : ℚ))]] "x" 5).length
        ≤ (filtered_above [[("x", (1 : ℚ))], [("x", (3 : ℚ))], [("x", (6 : ℚ))]] "x" 2).length
      ∧ (filtered_below [[("x", (1 : ℚ))], [("x", (3 : ℚ))], [("x", (6 : ℚ))]] "x" 2).length
        ≤ (filtered_below [[("x", (1 : ℚ))], [("x", (3 : ℚ))], [("x", (6 : ℚ))]] "x" 5).length) :=
  ⟨by norm_num,
   subset_counts_monotone [[("x", (1 : ℚ))], [("x", (3 : ℚ))], [("x", (6 : ℚ))]] "x" 2 5
     (by norm_num)⟩

/-- C5: applying the filter chain in any permutation of the same filters
yields the identical filtered dataset. -/
theorem apply_filters_perm_invariant (cols : List String) (df : DataFrame)
    (fs1 fs2 : List FilterSpec) (h : fs1.Perm fs2) :
    apply_filters cols df fs1 = apply_filters cols df fs2 := by
  rw [apply_filters_eq_filter_all, apply_filters_eq_filter_all]
  refine List.filter_congr ?_
  intro r _
  exact all_perm_eq h _

/-- Witness for C5: two filters applied in both orders to a two-row
dataset give the same result. -/
theorem apply_filters_perm_invariant_witness :
    ([⟨some "a", FOp.ge, 1⟩, ⟨some "b", FOp.lt, 5⟩] : List FilterSpec).Perm
      [⟨some "b", FOp.lt, 5⟩, ⟨some "a", FOp.ge, 1⟩]
    ∧ apply_filters ["a", "b"]
        [[("a", (2 : ℚ)), ("b", (3 : ℚ))], [("a", (0 : ℚ)), ("b", (9 : ℚ))]]
        [⟨some "a", FOp.ge, 1⟩, ⟨some "b", FOp.lt, 5⟩]
      = apply_filters ["a", "b"]
        [[("a", (2 : ℚ)), ("b", (3 : ℚ))], [("a", (0 : ℚ)), ("b", (9 : ℚ))]]
        [⟨some "b", FOp.lt, 5⟩, ⟨some "a", FOp.ge, 1⟩] :=
  ⟨List.Perm.swap _ _ _,
   apply_filters_perm_invariant ["a", "b"]
     [[("a", (2 : ℚ)), ("b", (3 : ℚ))], [("a", (0 : ℚ)), ("b", (9 : ℚ))]]
     [⟨some "a", FOp.ge, 1⟩, ⟨some "b", FOp.lt, 5⟩]
     [⟨some "b", FOp.lt, 5⟩, ⟨some "a", FOp.ge, 1⟩]
     (List.Perm.swap _ _ _)⟩

/-- C10: at every sweep threshold each row of the filtered dataset lies
in the above-subset or the below-subset; at the first threshold the
above-subset is the whole dataset and at the last the below-subset is,
so both counts there equal the total row count. -/
theorem sweep_subsets_cover (df : DataFrame) (pcol : String)
    (hall : ∀ r ∈ df, (colVal pcol r).isSome = true) (hne : df ≠ []) :
    (∀ t ∈ thresholds df pcol, ∀ r ∈ df,
       r ∈ filtered_above df pcol t ∨ r ∈ filtered_below df pcol t)
    ∧ filtered_above df pcol ((thresholds df pcol).headD 0) = df
    ∧ filtered_below df pcol ((thresholds df pcol).getLastD 0) = df
    ∧ (filtered_above df pcol ((thresholds df pcol).headD 0)).length = df.length
    ∧ (filtered_below df pcol ((thresholds df pcol).getLastD 0)).length = df.length := by
  have hth : thresholds df pcol
      = linspace (vmin (colVals df pcol)) (vmax (colVals df pcol)) 20 := rfl
  have hhead : (thresholds df pcol).headD 0 = vmin (colVals df pcol) := by
    rw [hth, linspace_headD]
  have hlast : (thresholds df pcol).getLastD 0 = vmax (colVals df pcol) := by
    rw [hth, linspace_getLastD]
  have habove : filtered_above df pcol ((thresholds df pcol).headD 0) = df := by
    rw [hhead]
    refine List.filter_eq_self.2 ?_
    intro r hr
    rcases Option.isSome_iff_exists.1 (hall r hr) with ⟨x, hx⟩
    have hxin : x ∈ colVals df pcol := List.mem_filterMap.2 ⟨r, hr, hx⟩
    simp only [hx, decide_eq_true_eq]
    exact vmin_le_of_mem hxin
  have hbelow : filtered_below df pcol ((thresholds df pcol).getLastD 0) = df := by
    rw [hlast]
    refine List.filter_eq_self.2 ?_
    intro r hr
    rcases Option.isSome_iff_exists.1 (hall r hr) with ⟨x, hx⟩
    have hxin : x ∈ colVals df pcol := List.mem_filterMap.2 ⟨r, hr, hx⟩
    simp only [hx, decide_eq_true_eq]
    exact le_vmax_of_mem hxin
  refine ⟨?_, habove, hbelow, by rw [habove], by rw [hbelow]⟩
  intro t _ r hr
  rcases Option.isSome_iff_exists.1 (hall r hr) with ⟨x, hx⟩
  rcases le_total t x with hle | hle
  · exact Or.inl (mem_filtered_above hr hx hle)
  · exact Or.inr (mem_filtered_below hr hx hle)

/-- Witness for C10 at the two-row dataset with predictor values 1, 20. -/
theorem sweep_subsets_cover_witness :
    (∀ r ∈ [[("x", (1 : ℚ))], [("x", (20 : ℚ))]], (colVal "x" r).isSome = true)
    ∧ [[("x", (1 : ℚ))], [("x", (20 : ℚ))]] ≠ ([] : DataFrame)
    ∧ ((∀ t ∈ thresholds [[("x", (1 : ℚ))], [("x", (20 : ℚ))]] "x",
          ∀ r ∈ [[("x", (1 : ℚ))], [("x", (20 : ℚ))]],
            r ∈ filtered_above [[("x", (1 : ℚ))], [("x", (20 : ℚ))]] "x" t
            ∨ r ∈ filtered_below [[("x", (1 : ℚ))], [("x", (20 : ℚ))]] "x" t)
      ∧ filtered_above [[("x", (1 : ℚ))], [("x", (20 : ℚ))]] "x"
          ((thresholds [[("x", (1 : ℚ))], [("x", (20 : ℚ))]] "x").headD 0)
          = [[("x", (1 : ℚ))], [("x", (20 : ℚ))]]
      ∧ filtered_below [[("x", (1 : ℚ))], [("x", (20 : ℚ))]] "x"
          ((thresholds [[("x", (1 : ℚ))], [("x", (20 : ℚ))]] "x").getLastD 0)
          = [[("x", (1 : ℚ))], [("x", (20 : ℚ))]]
      ∧ (filtered_above [[("x", (1 : ℚ))], [("x", (20 : ℚ))]] "x"
          ((thresholds [[("x", (1 : ℚ))], [("x", (20 : ℚ))]] "x").headD 0)).length
          = ([[("x", (1 : ℚ))], [("x", (20 : ℚ))]] : DataFrame).length
      ∧ (filtered_below [[("x", (1 : ℚ))], [("x", (20 : ℚ))]] "x"
          ((thresholds [[("x", (1 : ℚ))], [("x", (20 : ℚ))]] "x").getLastD 0)).length
          = ([[("x", (1 : ℚ))], [("x", (20 : ℚ))]] : DataFrame).length) :=
  ⟨by decide, by decide,
   sweep_subsets_cover [[("x", (1 : ℚ))], [("x", (20 : ℚ))]] "x"
     (by decide) (by decide)⟩

theorem colVals_filter_ne_nil {df : DataFrame} {c : String} {p : Row → Bool}
    (hall : ∀ r ∈ df, (colVal c r).isSome = true) (hne : df.filter p ≠ []) :
    colVals (df.filter p) c ≠ [] := by
  rcases List.exists_mem_of_ne_nil _ hne with ⟨r, hr⟩
  have hrdf : r ∈ df := (List.mem_filter.1 hr).1
  rcases Option.isSome_iff_exists.1 (hall r hrdf) with ⟨x, hx⟩
  exact List.ne_nil_of_mem (List.mem_filterMap.2 ⟨r, hr, hx⟩)

/-- C2: at every sweep threshold and on each side, the reported statistic
is the statistic function of the side's outcome values when the side's
row count reaches minN, and the NaN sentinel when it does not; with minN
larger than the dataset both sides are undefined.  The statement is for
every minN, so in particular for 0, 1 and any value above the size. -/
theorem statistic_gated_by_minN (df : DataFrame) (pcol outcome : String)
    (f : List ℚ → ℚ) (minn : ℕ) (t : ℚ)
    (hvar : ∀ r ∈ df, (colVal pcol r).isSome = true)
    (hout : ∀ r ∈ df, (colVal outcome r).isSome = true)
    (hne : df ≠ []) (ht : t ∈ thresholds df pcol) :
    (minn ≤ (filtered_above df pcol t).length →
       stat_above df pcol outcome t minn f
         = some (f (colVals (filtered_above df pcol t) outcome)))
    ∧ ((filtered_above df pcol t).length < minn →
       stat_above df pcol outcome t minn f = none)
    ∧ (minn ≤ (filtered_below df pcol t).length →
       stat_below df pcol outcome t minn f
         = some (f (colVals (filtered_below df pcol t) outcome)))
    ∧ ((filtered_below df pcol t).length < minn →
       stat_below df pcol outcome t minn f = none)
    ∧ (df.length < minn →
       stat_above df pcol outcome t minn f = none
       ∧ stat_below df pcol outcome t minn f = none) := by
  have hcv : colVals df pcol ≠ [] := colVals_ne_nil hvar hne
  have hmm : vmin (colVals df pcol) ≤ vmax (colVals df pcol) := vmin_le_vmax hcv
  have hbounds := linspace_mem_bounds hmm ht
  have habove_ne : filtered_above df pcol t ≠ [] :=
    filtered_above_ne_nil hvar hne hbounds.2
  have hbelow_ne : filtered_below df pcol t ≠ [] :=
    filtered_below_ne_nil hvar hne hbounds.1
  have hvalsA : colVals (filtered_above df pcol t) outcome ≠ [] :=
    colVals_filter_ne_nil hout habove_ne
  have hvalsB : colVals (filtered_below df pcol t) outcome ≠ [] :=
    colVals_filter_ne_nil hout hbelow_ne
  have hA : minn ≤ (filtered_above df pcol t).length →
      stat_above df pcol outcome t minn f
        = some (f (colVals (filtered_above df pcol t) outcome)) := by
    intro hminn
    rw [stat_above, if_pos hminn, applyStat,
      if_neg (by simpa [List.isEmpty_iff] using hvalsA)]
  have hAn : (filtered_above df pcol t).length < minn →
      stat_above df pcol outcome t minn f = none := by
    intro hlt
    rw [stat_above, if_neg (by omega)]
  have hB : minn ≤ (filtered_below df pcol t).length →
      stat_below df pcol outcome t minn f
        = some (f (colVals (filtered_below df pcol t) outcome)) := by
    intro hminn
    rw [stat_below, if_pos hminn, applyStat,
      if_neg (by simpa [List.isEmpty_iff] using hvalsB)]
  have hBn : (filtered_below df pcol t).length < minn →
      stat_below df pcol outcome t minn f = none := by
    intro hlt
    rw [stat_below, if_neg (by omega)]
  refine ⟨hA, hAn, hB, hBn, ?_⟩
  intro hbig
  have h1 : (filtered_above df pcol t).length ≤ df.length :=
    List.length_filter_le _ _
  have h2 : (filtered_below df pcol t).length ≤ df.length :=
    List.length_filter_le _ _
  exact ⟨hAn (by omega), hBn (by omega)⟩

/-- Witness for C2 at the two-row dataset with predictor 1 and 20,
outcome column y, statistic np.mean, minN = 1, threshold 1 (the first
of the sweep). -/
theorem statistic_gated_by_minN_witness :
    (∀ r ∈ [[("x", (1 : ℚ)), ("y", (5 : ℚ))], [("x", (20 : ℚ)), ("y", (7 : ℚ))]],
        (colVal "x" r).isSome = true)
    ∧ (∀ r ∈ [[("x", (1 : ℚ)), ("y", (5 : ℚ))], [("x", (20 : ℚ)), ("y", (7 : ℚ))]],
        (colVal "y" r).isSome = true)
    ∧ [[("x", (1 : ℚ)), ("y", (5 : ℚ))], [("x", (20 : ℚ)), ("y", (7 : ℚ))]]
        ≠ ([] : DataFrame)
    ∧ (1 : ℚ) ∈ thresholds
        [[("x", (1 : ℚ)), ("y", (5 : ℚ))], [("x", (20 : ℚ)), ("y", (7 : ℚ))]] "x"
    ∧ ((1 ≤ (filtered_above
          [[("x", (1 : ℚ)), ("y", (5 : ℚ))], [("x", (20 : ℚ)), ("y", (7 : ℚ))]]
          "x" 1).length →
        stat_above
          [[("x", (1 : ℚ)), ("y", (5 : ℚ))], [("x", (20 : ℚ)), ("y", (7 : ℚ))]]
          "x" "y" 1 1 mean
          = some (mean (colVals (filtered_above
              [[("x", (1 : ℚ)), ("y", (5 : ℚ))], [("x", (20 : ℚ)), ("y", (7 : ℚ))]]
              "x" 1) "y")))
      ∧ ((filtered_above
          [[("x", (1 : ℚ)), ("y", (5 : ℚ))], [("x", (20 : ℚ)), ("y", (7 : ℚ))]]
          "x" 1).length < 1 →
        stat_above
          [[("x", (1 : ℚ)), ("y", (5 : ℚ))], [("x", (20 : ℚ)), ("y", (7 : ℚ))]]
          "x" "y" 1 1 mean = none)
      ∧ (1 ≤ (filtered_below
          [[("x", (1 : ℚ)), ("y", (5 : ℚ))], [("x", (20 : ℚ)), ("y", (7 : ℚ))]]
          "x" 1).length →
        stat_below
          [[("x", (1 : ℚ)), ("y", (5 : ℚ))], [("x", (20 : ℚ)), ("y", (7 : ℚ))]]
          "x" "y" 1 1 mean
          = some (mean (colVals (filtered_below
              [[("x", (1 : ℚ)), ("y", (5 : ℚ))], [("x", (20 : ℚ)), ("y", (7 : ℚ))]]
              "x" 1) "y")))
      ∧ ((filtered_below
          [[("x", (1 : ℚ)), ("y", (5 : ℚ))], [("x", (20 : ℚ)), ("y", (7 : ℚ))]]
          "x" 1).length < 1 →
        stat_below
          [[("x", (1 : ℚ)), ("y", (5 : ℚ))], [("x", (20 : ℚ)), ("y", (7 : ℚ))]]
          "x" "y" 1 1 mean = none)
      ∧ (([[("x", (1 : ℚ)), ("y", (5 : ℚ))], [("x", (20 : ℚ)), ("y", (7 : ℚ))]]
            : DataFrame).length < 1 →
        stat_above
          [[("x", (1 : ℚ)), ("y", (5 : ℚ))], [("x", (20 : ℚ)), ("y", (7 : ℚ))]]
          "x" "y" 1 1 mean = none
        ∧ stat_below
          [[("x", (1 : ℚ)), ("y", (5 : ℚ))], [("x", (20 : ℚ)), ("y", (7 : ℚ))]]
          "x" "y" 1 1 mean = none))
 := by
  have hmem : (1 : ℚ) ∈ thresholds
      [[("x", (1 : ℚ)), ("y", (5 : ℚ))], [("x", (20 : ℚ)), ("y", (7 : ℚ))]] "x" := by
    have h1 : colVals
        [[("x", (1 : ℚ)), ("y", (5 : ℚ))], [("x", (20 : ℚ)), ("y", (7 : ℚ))]] "x"
        = [1, 20] := by
      simp [colVals, colVal]
    unfold thresholds
    rw [h1]
    have h2 : vmin [1, 20] = (1 : ℚ) := by norm_num [vmin, min_def]
    have h3 : vmax [1, 20] = (20 : ℚ) := by norm_num [vmax, max_def]
    rw [h2, h3]
    refine List.mem_map.2 ⟨0, by simp, by norm_num⟩
  exact ⟨by decide, by decide, by decide, hmem,
    statistic_gated_by_minN
      [[("x", (1 : ℚ)), ("y", (5 : ℚ))], [("x", (20 : ℚ)), ("y", (7 : ℚ))]]
      "x" "y" mean 1 1 (by decide) (by decide) (by decide) hmem⟩

theorem percentile_singleton (x q : ℚ) : percentile [x] q = x := by
  simp [percentile, sortQ, insertSorted]

/-- C6 counterexample: the bootstrap interval function depends on the
generator state it starts from.  genoutcomepredict2.py never calls
np.random.seed, so its bootstrap call starts from the ambient process
state; two runs whose ambient states differ (here 0 and 3) return
different bounds on the identical input [0, 1], refuting bit-for-bit
reproducibility for that script. -/
theorem unseeded_bootstrap_not_reproducible :
    (bootstrap_mean_confidence_interval [0, 1] 1 95 0).1
      ≠ (bootstrap_mean_confidence_interval [0, 1] 1 95 3).1 := by
  have h0 : (bootstrap_mean_confidence_interval [0, 1] 1 95 0).1 = (0, 0) := by
    simp [bootstrap_mean_confidence_interval, np_random_choice_matrix, draws,
      randBelow, lcgStep, rowsOf, mean, percentile_singleton]
  have h3 : (bootstrap_mean_confidence_interval [0, 1] 1 95 3).1 = (1, 1) := by
    simp [bootstrap_mean_confidence_interval, np_random_choice_matrix, draws,
      randBelow, lcgStep, rowsOf, mean, percentile_singleton]
  rw [h0, h3]
  norm_num

/-- C6 (amended): genoutcomepredict.py fixes the generator with
np.random.seed(0) at startup, so its bootstrap bounds are a function of
the input data alone: two runs from any two ambient states agree
bit-for-bit, for the mean and the median interval alike.  (The
counterexample shows genoutcomepredict2.py, which never seeds, lacks
this property.) -/
theorem seeded_bootstrap_reproducible (g1 g2 : ℕ) (data : List ℚ) :
    seeded_bootstrap_mean_ci g1 data = seeded_bootstrap_mean_ci g2 data
    ∧ seeded_bootstrap_median_ci g1 data = seeded_bootstrap_median_ci g2 data :=
  ⟨rfl, rfl⟩

/-- C7: on any non-empty sample, the mean-kind interval is exactly the
spec procedure — 1000 resamples with replacement of size len(data), the
mean of each, and the 2.5th and 97.5th percentiles of those 1000 means
as (lower, upper) — and the median-kind interval is the identical
procedure with the median statistic. -/
theorem bootstrap_follows_spec_procedure (data : List ℚ) (g : ℕ)
    (hne : data ≠ []) :
    bootstrap_mean_confidence_interval data 1000 95 g
      = specBootstrapCI mean data 1000 g
    ∧ bootstrap_median_confidence_interval data 1000 95 g
      = specBootstrapCI median data 1000 g := by
  have hm := choice_matrix_eq_spec mean data 1000 g
  have hd := choice_matrix_eq_spec median data 1000 g
  have hm1 := congrArg Prod.fst hm
  have hm2 := congrArg Prod.snd hm
  have hd1 := congrArg Prod.fst hd
  have hd2 := congrArg Prod.snd hd
  simp only at hm1 hm2 hd1 hd2
  constructor
  · rw [bootstrap_mean_confidence_interval, specBootstrapCI]
    rw [hm1, hm2]
    norm_num
  · rw [bootstrap_median_confidence_interval, specBootstrapCI]
    rw [hd1, hd2]
    norm_num

/-- Witness for C7 at the sample [0, 1] and generator state 0. -/
theorem bootstrap_follows_spec_procedure_witness :
    ([0, 1] : List ℚ) ≠ []
    ∧ (bootstrap_mean_confidence_interval [0, 1] 1000 95 0
        = specBootstrapCI mean [0, 1] 1000 0
      ∧ bootstrap_median_confidence_interval [0, 1] 1000 95 0
        = specBootstrapCI median [0, 1] 1000 0) :=
  ⟨by decide, bootstrap_follows_spec_procedure [0, 1] 0 (by decide)⟩

/-- C9: when the dataset is empty after applying the filters and
dropping rows with missing predictor or outcome, the sweep for that
GraphSpec does not run — its per-graph outcome is the recoverable
skippedEmpty, not a failure — and the batch continues with the
remaining GraphSpecs unchanged. -/
theorem empty_filtered_dataset_skips_sweep (cols : List String) (df : DataFrame)
    (gs : GraphSpec) (rest : List GraphSpec)
    (h1 : gs.outcome ∈ cols) (h2 : gs.pcol ∈ cols)
    (hemp : dropna (apply_filters cols df gs.filters) gs.pcol gs.outcome = []) :
    processSpec cols df gs = GraphOutcome.skippedEmpty
    ∧ generate_graphs cols df (gs :: rest)
      = GraphOutcome.skippedEmpty :: generate_graphs cols df rest := by
  have hps : processSpec cols df gs = GraphOutcome.skippedEmpty := by
    simp [processSpec, h1, h2, hemp]
  exact ⟨hps, by simp [generate_graphs, hps]⟩

/-- The sum of a 0/1 outcome column lies between 0 and the row count. -/
theorem sum01_bounds {data : List ℚ} (h : ∀ x ∈ data, x = 0 ∨ x = 1) :
    0 ≤ data.sum ∧ data.sum ≤ (data.length : ℚ) := by
  induction data with
  | nil => simp
  | cons x xs ih =>
    have hx := h x (List.mem_cons_self x xs)
    have ihh := ih (fun y hy => h y (List.mem_cons_of_mem x hy))
    rw [List.sum_cons, List.length_cons]
    push_cast
    rcases hx with rfl | rfl
    · constructor <;> linarith [ihh.1, ihh.2]
    · constructor <;> linarith [ihh.1, ihh.2]

set_option maxHeartbeats 800000 in
/-- C8: for a non-empty 0/1 outcome sample, the Wilson score interval
computed from successes = sum(data) and trials = count(data) satisfies
0 <= lower <= proportion <= upper <= 1, for every nonnegative z-score;
s is the exact square root of the discriminant. -/
theorem wilson_interval_brackets (data : List ℚ) (z s : ℚ)
    (h01 : ∀ x ∈ data, x = 0 ∨ x = 1) (hne : data ≠ [])
    (hz : 0 ≤ z) (hs : 0 ≤ s) (hsq : s ^ 2 = wilsonDisc data z) :
    0 ≤ wilsonLower data z s
    ∧ wilsonLower data z s ≤ data.sum / (data.length : ℚ)
    ∧ data.sum / (data.length : ℚ) ≤ wilsonUpper data z s
    ∧ wilsonUpper data z s ≤ 1 := by
  set n : ℚ := (data.length : ℚ) with hn_def
  have hn1 : 1 ≤ n := by
    rw [hn_def]
    have hlp : 1 ≤ data.length := List.length_pos.2 hne
    exact_mod_cast hlp
  have hn0 : (0 : ℚ) < n := by linarith
  have hnne : n ≠ 0 := ne_of_gt hn0
  obtain ⟨hs0, hsn⟩ := sum01_bounds h01
  set p : ℚ := data.sum / n with hp_def
  have hp0 : 0 ≤ p := div_nonneg hs0 hn0.le
  have hp1 : p ≤ 1 := by
    rw [hp_def, div_le_one hn0]
    exact hsn
  have hD : (0 : ℚ) < 1 + z ^ 2 / n := by positivity
  have hzs : 0 ≤ z * s := mul_nonneg hz hs
  have hpq : 0 ≤ p * (1 - p) := mul_nonneg hp0 (by linarith)
  have hsq2 : s ^ 2 = p * (1 - p) / n + z ^ 2 / (4 * n ^ 2) := hsq
  have hsq3 : 4 * n ^ 2 * s ^ 2 = 4 * n * (p * (1 - p)) + z ^ 2 := by
    rw [hsq2]
    field_simp
    ring
  have hsq4 : 4 * n ^ 2 * s ^ 2 * z ^ 2 = (4 * n * (p * (1 - p)) + z ^ 2) * z ^ 2 := by
    rw [hsq3]
  have hL : wilsonLower data z s = (p + z ^ 2 / (2 * n) - z * s) / (1 + z ^ 2 / n) := rfl
  have hU : wilsonUpper data z s = (p + z ^ 2 / (2 * n) + z * s) / (1 + z ^ 2 / n) := rfl
  have h2n : (0 : ℚ) < 2 * n := by linarith
  have hA : 0 ≤ n * (p * (1 - p)) * z ^ 2 :=
    mul_nonneg (mul_nonneg hn0.le hpq) (sq_nonneg z)
  have hB : 0 ≤ p * (1 - p) * z ^ 2 * z ^ 2 :=
    mul_nonneg (mul_nonneg hpq (sq_nonneg z)) (sq_nonneg z)
  have e1 : (2 * n * (z * s)) ^ 2 = 4 * n ^ 2 * s ^ 2 * z ^ 2 := by ring
  have key1 : z * s ≤ p + z ^ 2 / (2 * n) := by
    rw [← mul_le_mul_left h2n]
    have hexp : 2 * n * (p + z ^ 2 / (2 * n)) = 2 * n * p + z ^ 2 := by
      field_simp
      ring
    rw [hexp]
    refine le_of_pow_le_pow_left₀ two_ne_zero
      (by linarith [mul_nonneg hn0.le hp0, sq_nonneg z]) ?_
    rw [e1, hsq4]
    linarith [sq_nonneg (n * p),
      mul_nonneg (mul_nonneg hn0.le (sq_nonneg p)) (sq_nonneg z)]
  have key2 : z ^ 2 / (2 * n) - p * (z ^ 2 / n) ≤ z * s := by
    rw [← mul_le_mul_left h2n]
    have hexp : 2 * n * (z ^ 2 / (2 * n) - p * (z ^ 2 / n)) = z ^ 2 * (1 - 2 * p) := by
      field_simp
      ring
    rw [hexp]
    refine le_of_pow_le_pow_left₀ two_ne_zero (mul_nonneg h2n.le hzs) ?_
    rw [e1, hsq4]
    linarith [hA, hB]
  have key3 : p * (z ^ 2 / n) - z ^ 2 / (2 * n) ≤ z * s := by
    rw [← mul_le_mul_left h2n]
    have hexp : 2 * n * (p * (z ^ 2 / n) - z ^ 2 / (2 * n)) = z ^ 2 * (2 * p - 1) := by
      field_simp
      ring
    rw [hexp]
    refine le_of_pow_le_pow_left₀ two_ne_zero (mul_nonneg h2n.le hzs) ?_
    rw [e1, hsq4]
    linarith [hA, hB]
  have key4 : z * s ≤ (1 - p) + z ^ 2 / (2 * n) := by
    rw [← mul_le_mul_left h2n]
    have hexp : 2 * n * ((1 - p) + z ^ 2 / (2 * n)) = 2 * n * (1 - p) + z ^ 2 := by
      field_simp
      ring
    rw [hexp]
    refine le_of_pow_le_pow_left₀ two_ne_zero
      (by linarith [mul_nonneg hn0.le (by linarith : (0:ℚ) ≤ 1 - p), sq_nonneg z]) ?_
    rw [e1, hsq4]
    linarith [sq_nonneg (n * (1 - p)),
      mul_nonneg (mul_nonneg hn0.le (sq_nonneg (1 - p))) (sq_nonneg z)]
  have hzn : p * (1 + z ^ 2 / n) = p + p * (z ^ 2 / n) := by ring
  refine ⟨?_, ?_, ?_, ?_⟩
  · rw [hL]
    exact div_nonneg (by linarith [key1]) hD.le
  · rw [hL, div_le_iff₀ hD, hzn]
    linarith [key2]
  · rw [hU, le_div_iff₀ hD, hzn]
    linarith [key3]
  · rw [hU, div_le_one hD]
    have hhalf : z ^ 2 / n = 2 * (z ^ 2 / (2 * n)) := by
      field_simp
      ring
    linarith [key4, hhalf]

/-- Witness for C9: the spec example — filter sex == 1 over a dataset
whose only row has sex = 0 empties the dataset, and the GraphSpec is
skipped while the batch goes on. -/
theorem empty_filtered_dataset_skips_sweep_witness :
    ("b" : String) ∈ ["sex", "a", "b"]
    ∧ ("a" : String) ∈ ["sex", "a", "b"]
    ∧ dropna (apply_filters ["sex", "a", "b"]
        [[("sex", (0 : ℚ)), ("a", (1 : ℚ)), ("b", (2 : ℚ))]]
        [⟨some "sex", FOp.eq, 1⟩]) "a" "b" = []
    ∧ (processSpec ["sex", "a", "b"]
        [[("sex", (0 : ℚ)), ("a", (1 : ℚ)), ("b", (2 : ℚ))]]
        ⟨"a", "b", [⟨some "sex", FOp.eq, 1⟩], 'p', 0⟩ = GraphOutcome.skippedEmpty
      ∧ generate_graphs ["sex", "a", "b"]
          [[("sex", (0 : ℚ)), ("a", (1 : ℚ)), ("b", (2 : ℚ))]]
          (⟨"a", "b", [⟨some "sex", FOp.eq, 1⟩], 'p', 0⟩ :: [])
        = GraphOutcome.skippedEmpty :: generate_graphs ["sex", "a", "b"]
            [[("sex", (0 : ℚ)), ("a", (1 : ℚ)), ("b", (2 : ℚ))]] []) :=
  ⟨by decide, by decide, by decide,
   empty_filtered_dataset_skips_sweep ["sex", "a", "b"]
     [[("sex", (0 : ℚ)), ("a", (1 : ℚ)), ("b", (2 : ℚ))]]
     ⟨"a", "b", [⟨some "sex", FOp.eq, 1⟩], 'p', 0⟩ []
     (by decide) (by decide) (by decide)⟩

/-- Witness for C8 at the singleton sample [0] with z = 2, where the
discriminant is exactly 1 and its square root s = 1. -/
theorem wilson_interval_brackets_witness :
    (∀ x ∈ ([0] : List ℚ), x = 0 ∨ x = 1)
    ∧ ([0] : List ℚ) ≠ []
    ∧ (0 : ℚ) ≤ 2
    ∧ (0 : ℚ) ≤ 1
    ∧ (1 : ℚ) ^ 2 = wilsonDisc [0] 2
    ∧ (0 ≤ wilsonLower [0] 2 1
      ∧ wilsonLower [0] 2 1 ≤ ([0] : List ℚ).sum / ((([0] : List ℚ).length : ℚ))
      ∧ ([0] : List ℚ).sum / ((([0] : List ℚ).length : ℚ)) ≤ wilsonUpper [0] 2 1
      ∧ wilsonUpper [0] 2 1 ≤ 1) :=
  ⟨by decide, by decide, by norm_num, by norm_num, by norm_num [wilsonDisc],
   wilson_interval_brackets [0] 2 1 (by decide) (by decide) (by norm_num)
     (by norm_num) (by norm_num [wilsonDisc])⟩
